import Mathlib

/-
Verification development for the sendpigeon Python SDK.

The embedding models the two core components of the SDK:
  * the retrying HTTP transport (src/sendpigeon/_http.py), and
  * the webhook signature verifier (src/sendpigeon/webhooks.py),
together with the client option construction (src/sendpigeon/client.py,
src/sendpigeon/async_client.py), the Result wrapper
(src/sendpigeon/types.py) and the email body builders
(src/sendpigeon/_shared.py, src/sendpigeon/client.py).

Python JSON values (the results of json.loads and the bodies sent on the
wire) are modelled by the inductive type Json below, with Json.null
playing the role of the Python value None.  External primitives that the
SDK calls but does not define (int(), float(), json.loads,
hmac.new(...).hexdigest()) are abstract parameters of the embedding;
hmac.compare_digest is modelled concretely from its documented
constant-time semantics because one claim is about exactly that.
-/

/-- Python/JSON values as produced by json.loads.  Json.null doubles as the
Python value None (json.loads maps JSON null to None, and optional fields
default to None). -/
inductive Json where
  | null
  | bool (b : Bool)
  | num (n : Int)
  | str (s : String)
  | arr (elems : List Json)
  | obj (entries : List (String × Json))

/-- Python test `x is None` for a value of JSON type. -/
def Json.isNull : Json → Bool
  | .null => true
  | _ => false

/-- Python truthiness of a JSON-shaped value: None, "", 0, False, [] and
\x7b\x7d are falsy, everything else is truthy. -/
def pyTruthy : Json → Bool
  | .null => false
  | .bool b => b
  | .num n => decide (n ≠ 0)
  | .str s => decide (s ≠ "")
  | .arr elems => !elems.isEmpty
  | .obj entries => !entries.isEmpty

/-- Python dict lookup `d[key]` as an option: first entry with the given
key, if any (JSON objects parsed by json.loads have unique keys, parsed
in order). -/
def dict_find (entries : List (String × Json)) (key : String) : Option Json :=
  (entries.find? (fun kv => kv.1 == key)).map Prod.snd

/-- Python `d.get(key, default)`: the stored value when the key is present
(even when that value is None), otherwise the default. -/
def dict_get (entries : List (String × Json)) (key : String) (default : Json) : Json :=
  (dict_find entries key).getD default

/-- SendPigeonError from src/sendpigeon/errors.py: message, code, optional
api_code and optional HTTP status.  message and api_code hold whatever the
response body supplied, so they are modelled as Json (a Python value);
in the SDK's own constructions they are always strings. -/
structure SendPigeonError where
  message : Json
  code : String
  api_code : Json := Json.null
  status : Option Nat := none

/-- Result from src/sendpigeon/types.py: data or error.  data defaults to
None (Json.null); error is a SendPigeonError or None. -/
structure Result where
  data : Json := Json.null
  error : Option SendPigeonError := none

/-- Result.ok from src/sendpigeon/types.py: `self.error is None`. -/
def Result.ok (r : Result) : Bool := r.error.isNone

/-- What a call to Result.unwrap does: raise the stored error, raise
ValueError, or return the data. -/
inductive UnwrapOutcome where
  | raisedError (e : SendPigeonError)
  | raisedValueError (msg : String)
  | value (v : Json)

/-- Result.unwrap from src/sendpigeon/types.py: `if self.error: raise
self.error` (a SendPigeonError instance is always truthy), then `if
self.data is None: raise ValueError("Result has no data")`, else return
the data. -/
def Result.unwrap (r : Result) : UnwrapOutcome :=
  match r.error with
  | some e => .raisedError e
  | none =>
    if r.data.isNull then .raisedValueError "Result has no data"
    else .value r.data

/-- _should_retry from src/sendpigeon/_http.py: status 429 or at least
500. -/
def _should_retry (status : Nat) : Bool :=
  decide (status = 429 ∨ 500 ≤ status)

/-- httpx Response.is_success: status in the 2xx range. -/
def is_success (status : Nat) : Bool :=
  decide (200 ≤ status ∧ status < 300)

/-- _get_retry_delay from src/sendpigeon/_http.py.  pf abstracts Python
float() on strings (none when float() raises ValueError; float("")
raises).  The guard `if retry_after:` skips None and the empty string;
then `float(retry_after)` is tried and a ValueError falls through to the
backoff formula min(0.5 * 2^attempt, 8.0). -/
def _get_retry_delay (pf : String → Option Rat) (attempt : Nat) (retry_after : Option String) : Rat :=
  let fallback : Rat := min ((1 : Rat)/2 * 2 ^ attempt) 8
  match retry_after with
  | none => fallback
  | some s => if s = "" then fallback else (pf s).getD fallback

/-- _parse_error from src/sendpigeon/_http.py applied to a response whose
body parses to the given Json (none when response.json() raises).  When
the body is a dict, message is body.get("message", "Request failed:
<status>") and the second component is body.get("code"); any other body
shape makes body.get raise, caught by the bare except, yielding the
fallbacks. -/
def _parse_error (status : Nat) (body : Option Json) : Json × Json :=
  match body with
  | some (.obj entries) =>
    (dict_get entries "message" (.str ("Request failed: " ++ toString status)),
     dict_get entries "code" .null)
  | _ => (.str ("Request failed: " ++ toString status), .null)

/-- One physical HTTP attempt, as seen by the transport loop: either a
response (status, the Retry-After header if any, and the body's JSON
parse, none when response.json() would raise), or an
httpx.TimeoutException, or another httpx.RequestError. -/
inductive AttemptOutcome where
  | response (status : Nat) (retry_after : Option String) (body : Option Json)
  | timeoutExc
  | requestExc (msg : String)

/-- Whether an attempt outcome is one the loop retries on: a response with
a retryable status, or any caught exception. -/
def AttemptOutcome.isRetryable : AttemptOutcome → Bool
  | .response status _ _ => _should_retry status
  | .timeoutExc => true
  | .requestExc _ => true

/-- The Retry-After header carried by an attempt outcome (exceptions carry
none; the code passes None to _get_retry_delay for them). -/
def AttemptOutcome.retryAfterHeader : AttemptOutcome → Option String
  | .response _ ra _ => ra
  | .timeoutExc => none
  | .requestExc _ => none

/-- How one logical call ends: with a Result value, or with an uncaught
exception (json.JSONDecodeError from response.json() on a success-status
response, which is neither httpx.TimeoutException nor
httpx.RequestError and so escapes the try). -/
inductive RunResult where
  | outcome (r : Result)
  | raised

/-- Trace of one logical call: how it ended, how many physical attempts
were made, and the (attempt index, delay) pairs slept between attempts. -/
structure RunTrace where
  result : RunResult
  attempts : Nat
  delays : List (Nat × Rat)

/-- The `for attempt in range(max_retries + 1)` loop body shared verbatim
by SyncHttpClient.request and AsyncHttpClient.request in
src/sendpigeon/_http.py (they differ only in time.sleep versus
asyncio.sleep, which the trace records as a delay).  i is the current
0-indexed attempt, fuel the number of loop iterations left; `attempt <
max_retries` holds exactly when more than one iteration is left.  The
fuel-0 base case is the fall-through after the loop: Result(error =
SendPigeonError("Max retries exceeded", "network_error")). -/
def requestLoop (pf : String → Option Rat) (env : Nat → AttemptOutcome) :
    Nat → Nat → RunTrace
  | _, 0 =>
    { result := .outcome { error := some { message := .str "Max retries exceeded", code := "network_error" } },
      attempts := 0, delays := [] }
  | i, k + 1 =>
    match env i with
    | .response status retry_after body =>
      if status = 204 then
        { result := .outcome { data := Json.null }, attempts := 1, delays := [] }
      else if is_success status then
        match body with
        | some v => { result := .outcome { data := v }, attempts := 1, delays := [] }
        | none => { result := .raised, attempts := 1, delays := [] }
      else if _should_retry status ∧ k ≠ 0 then
        let d := _get_retry_delay pf i retry_after
        let rest := requestLoop pf env (i + 1) k
        { result := rest.result, attempts := rest.attempts + 1, delays := (i, d) :: rest.delays }
      else
        let pe := _parse_error status body
        { result := .outcome { error := some { message := pe.1, code := "api_error", api_code := pe.2, status := some status } },
          attempts := 1, delays := [] }
    | .timeoutExc =>
      if k ≠ 0 then
        let d := _get_retry_delay pf i none
        let rest := requestLoop pf env (i + 1) k
        { result := rest.result, attempts := rest.attempts + 1, delays := (i, d) :: rest.delays }
      else
        { result := .outcome { error := some { message := .str "Request timed out", code := "timeout_error" } },
          attempts := 1, delays := [] }
    | .requestExc m =>
      if k ≠ 0 then
        let d := _get_retry_delay pf i none
        let rest := requestLoop pf env (i + 1) k
        { result := rest.result, attempts := rest.attempts + 1, delays := (i, d) :: rest.delays }
      else
        { result := .outcome { error := some { message := .str m, code := "network_error" } },
          attempts := 1, delays := [] }

/-- SyncHttpClient.request from src/sendpigeon/_http.py: run the retry
loop for range(max_retries + 1) iterations (an empty range when
max_retries + 1 is not positive).  max_retries is a Python int, so it is
modelled as an Int. -/
def SyncHttpClient.request (max_retries : Int) (pf : String → Option Rat)
    (env : Nat → AttemptOutcome) : RunTrace :=
  requestLoop pf env 0 (max_retries + 1).toNat

/-- AsyncHttpClient.request from src/sendpigeon/_http.py: the source
duplicates the sync loop body, with asyncio.sleep in place of
time.sleep. -/
def AsyncHttpClient.request (max_retries : Int) (pf : String → Option Rat)
    (env : Nat → AttemptOutcome) : RunTrace :=
  requestLoop pf env 0 (max_retries + 1).toNat

/-- ClientOptions from src/sendpigeon/_http.py with its defaults. -/
structure ClientOptions where
  base_url : String := "https://api.sendpigeon.dev"
  timeout : Rat := 30
  max_retries : Int := 2
  debug : Bool := false

/-- The option construction in SendPigeon.__init__
(src/sendpigeon/client.py): start from defaults, `if base_url:` and `if
timeout:` overwrite on truthy values, and `if max_retries is not None:
options.max_retries = min(max_retries, 5)`. -/
def SendPigeon.initOptions (base_url : Option String) (timeout : Option Rat)
    (max_retries : Option Int) (debug : Bool) : ClientOptions :=
  let o : ClientOptions := { debug := debug }
  let o := match base_url with
    | some b => if b ≠ "" then { o with base_url := b } else o
    | none => o
  let o := match timeout with
    | some t => if t ≠ 0 then { o with timeout := t } else o
    | none => o
  match max_retries with
  | some m => { o with max_retries := min m 5 }
  | none => o

/-- The identical option construction in AsyncSendPigeon.__init__
(src/sendpigeon/async_client.py). -/
def AsyncSendPigeon.initOptions (base_url : Option String) (timeout : Option Rat)
    (max_retries : Option Int) (debug : Bool) : ClientOptions :=
  let o : ClientOptions := { debug := debug }
  let o := match base_url with
    | some b => if b ≠ "" then { o with base_url := b } else o
    | none => o
  let o := match timeout with
    | some t => if t ≠ 0 then { o with timeout := t } else o
    | none => o
  match max_retries with
  | some m => { o with max_retries := min m 5 }
  | none => o

/-- hmac.compare_digest on ASCII strings, modelled from the Python
standard library documentation: the comparison scans the whole of both
inputs without an early exit (the accumulated inequality never
short-circuits the scan), and the boolean result is plain equality.  The
second component counts the character comparisons performed, so that the
constant-time property (the count depends only on the lengths) can be
stated. -/
def compareDigestScan : List Char → List Char → Bool × Nat
  | [], [] => (true, 0)
  | [], _ :: bs =>
    let r := compareDigestScan [] bs
    (false, r.2 + 1)
  | _ :: as, [] =>
    let r := compareDigestScan as []
    (false, r.2 + 1)
  | a :: as, b :: bs =>
    let r := compareDigestScan as bs
    ((a == b) && r.1, r.2 + 1)

/-- hmac.compare_digest's boolean result. -/
def compare_digest (a b : String) : Bool :=
  (compareDigestScan a.data b.data).1

/-- Abstract primitives used by verify_webhook but defined outside the
repository: Python int() on a string (none when it raises),
hmac.new(key, msg, sha256).hexdigest() on UTF-8 encoded strings, and
json.loads (none when it raises json.JSONDecodeError). -/
structure VerifyPrims where
  int_of_string : String → Option Int
  hmac_sha256_hex : String → String → String
  json_loads : String → Option Json

/-- WebhookVerifySuccess / WebhookVerifyFailure from
src/sendpigeon/webhooks.py: valid=True with the parsed payload, or
valid=False with an error string. -/
inductive WebhookVerifyResult where
  | success (payload : Json)
  | failure (error : String)

/-- verify_webhook from src/sendpigeon/webhooks.py (string payload; a
bytes payload is first decoded to a string): parse the timestamp, check
abs(now - ts) <= max_age, compare the provided signature against
HMAC-SHA256(secret, "<timestamp>.<payload>") with hmac.compare_digest,
then json.loads the payload. -/
def verify_webhook (P : VerifyPrims) (now : Int) (payload signature timestamp secret : String)
    (max_age : Int) : WebhookVerifyResult :=
  match P.int_of_string timestamp with
  | none => .failure "Invalid timestamp"
  | some ts =>
    if |now - ts| > max_age then .failure "Timestamp too old"
    else
      let signed_payload := timestamp ++ "." ++ payload
      let expected := P.hmac_sha256_hex secret signed_payload
      if ¬ compare_digest expected signature then .failure "Invalid signature"
      else
        match P.json_loads payload with
        | none => .failure "Invalid JSON payload"
        | some data => .success data

/-- AttachmentInput from src/sendpigeon/types.py: filename is a str, the
other fields are str-or-None. -/
structure AttachmentInput where
  filename : String
  content : Json := Json.null
  path : Json := Json.null
  content_type : Json := Json.null

/-- The attachment dict built inside build_send_body / SendPigeon.send. -/
def attachmentToJson (a : AttachmentInput) : Json :=
  .obj [("filename", .str a.filename), ("content", a.content),
        ("path", a.path), ("contentType", a.content_type)]

/-- One `if value: body[key] = value` step of the body builders: a
singleton field when the guard is truthy, nothing otherwise. -/
def optField (cond : Bool) (key : String) (val : Json) : List (String × Json) :=
  if cond then [(key, val)] else []

/-- build_send_body from src/sendpigeon/_shared.py: the request body as an
ordered association list, fields included when truthy, in source
insertion order and under the source's wire keys. -/
def build_send_body (to_ subject html text from_ cc bcc reply_to template_id variables_ : Json)
    (attachments : Option (List AttachmentInput)) (tags metadata headers scheduled_at : Json) :
    List (String × Json) :=
  [("to", to_)]
  ++ optField (pyTruthy from_) "from" from_
  ++ optField (pyTruthy subject) "subject" subject
  ++ optField (pyTruthy html) "html" html
  ++ optField (pyTruthy text) "text" text
  ++ optField (pyTruthy cc) "cc" cc
  ++ optField (pyTruthy bcc) "bcc" bcc
  ++ optField (pyTruthy reply_to) "replyTo" reply_to
  ++ optField (pyTruthy template_id) "templateId" template_id
  ++ optField (pyTruthy variables_) "variables" variables_
  ++ (match attachments with
      | some l => optField (!l.isEmpty) "attachments" (.arr (l.map attachmentToJson))
      | none => [])
  ++ optField (pyTruthy tags) "tags" tags
  ++ optField (pyTruthy metadata) "metadata" metadata
  ++ optField (pyTruthy headers) "headers" headers
  ++ optField (pyTruthy scheduled_at) "scheduled_at" scheduled_at

/-- The body built inline by SendPigeon.send in src/sendpigeon/client.py
(same fields and wire keys as build_send_body; from_address plays the
role of from_). -/
def SendPigeon.sendBody (to_ subject html text from_address cc bcc reply_to template_id variables_ : Json)
    (attachments : Option (List AttachmentInput)) (tags metadata headers scheduled_at : Json) :
    List (String × Json) :=
  [("to", to_)]
  ++ optField (pyTruthy from_address) "from" from_address
  ++ optField (pyTruthy subject) "subject" subject
  ++ optField (pyTruthy html) "html" html
  ++ optField (pyTruthy text) "text" text
  ++ optField (pyTruthy cc) "cc" cc
  ++ optField (pyTruthy bcc) "bcc" bcc
  ++ optField (pyTruthy reply_to) "replyTo" reply_to
  ++ optField (pyTruthy template_id) "templateId" template_id
  ++ optField (pyTruthy variables_) "variables" variables_
  ++ (match attachments with
      | some l => optField (!l.isEmpty) "attachments" (.arr (l.map attachmentToJson))
      | none => [])
  ++ optField (pyTruthy tags) "tags" tags
  ++ optField (pyTruthy metadata) "metadata" metadata
  ++ optField (pyTruthy headers) "headers" headers
  ++ optField (pyTruthy scheduled_at) "scheduled_at" scheduled_at

/-- The comparison count of compareDigestScan depends only on the two
lengths: every position is visited, with no data-dependent early exit. -/
theorem compareDigestScan_snd (as bs : List Char) :
    (compareDigestScan as bs).2 = max as.length bs.length := by
  induction as generalizing bs with
  | nil =>
    induction bs with
    | nil => simp [compareDigestScan]
    | cons b bs ih => simp [compareDigestScan, ih]
  | cons a as ih =>
    cases bs with
    | nil =>
      have h : (compareDigestScan as []).2 = max as.length 0 := ih []
      simp [compareDigestScan, h]
    | cons b bs =>
      have h := ih bs
      simp [compareDigestScan, h]
      omega

/-- The boolean result of compareDigestScan is plain list equality. -/
theorem compareDigestScan_fst (as bs : List Char) :
    ((compareDigestScan as bs).1 = true) ↔ as = bs := by
  induction as generalizing bs with
  | nil =>
    cases bs with
    | nil => simp [compareDigestScan]
    | cons b bs => simp [compareDigestScan]
  | cons a as ih =>
    cases bs with
    | nil => simp [compareDigestScan]
    | cons b bs =>
      simp [compareDigestScan, Bool.and_eq_true, beq_iff_eq, ih]

/-- compare_digest decides string equality. -/
theorem compare_digest_iff (a b : String) : compare_digest a b = true ↔ a = b := by
  rw [compare_digest, compareDigestScan_fst]
  exact ⟨String.ext, fun h => by rw [h]⟩

/-- C9: the signature comparison used by verify_webhook is the
constant-time primitive: on inputs of equal length the number of
character comparisons performed equals that length (so it is the same for
any two runs on equal-length signatures, with no early exit at the first
differing character), and its boolean result is exactly string
equality. -/
theorem signature_compare_constant_time (a b : String) (h : a.length = b.length) :
    (compareDigestScan a.data b.data).2 = a.length ∧
    (compare_digest a b = true ↔ a = b) := by
  have ha : a.length = a.data.length := rfl
  have hb : b.length = b.data.length := rfl
  refine ⟨?_, compare_digest_iff a b⟩
  rw [compareDigestScan_snd]
  omega

/-- Witness for C9 at two concrete equal-length signatures differing in
the last character. -/
theorem signature_compare_constant_time_witness :
    (compareDigestScan "1f2a".data "1f2b".data).2 = "1f2a".length ∧
    (compare_digest "1f2a" "1f2b" = true ↔ "1f2a" = "1f2b") :=
  signature_compare_constant_time "1f2a" "1f2b" (by decide)

/-- compare_digest on two equal strings is true. -/
theorem compare_digest_self (a : String) : compare_digest a a = true :=
  (compare_digest_iff a a).mpr rfl

/-- C1: verify_webhook succeeds exactly when the timestamp parses as an
integer, its distance from now is within max_age, the provided signature
equals the hex HMAC-SHA256 of "timestamp.payload" under the secret, and
the payload parses as JSON; and each failure reason is returned exactly
when its check is the first one (in the fixed order invalid timestamp,
too old, invalid signature, invalid JSON) to fail. -/
theorem verify_webhook_spec (P : VerifyPrims) (now : Int)
    (payload signature timestamp secret : String) (max_age : Int) :
    (∀ j, verify_webhook P now payload signature timestamp secret max_age = .success j ↔
      ((∃ ts, P.int_of_string timestamp = some ts ∧ |now - ts| ≤ max_age) ∧
       P.hmac_sha256_hex secret (timestamp ++ "." ++ payload) = signature ∧
       P.json_loads payload = some j)) ∧
    (verify_webhook P now payload signature timestamp secret max_age = .failure "Invalid timestamp" ↔
      P.int_of_string timestamp = none) ∧
    (verify_webhook P now payload signature timestamp secret max_age = .failure "Timestamp too old" ↔
      (∃ ts, P.int_of_string timestamp = some ts ∧ |now - ts| > max_age)) ∧
    (verify_webhook P now payload signature timestamp secret max_age = .failure "Invalid signature" ↔
      ((∃ ts, P.int_of_string timestamp = some ts ∧ |now - ts| ≤ max_age) ∧
       P.hmac_sha256_hex secret (timestamp ++ "." ++ payload) ≠ signature)) ∧
    (verify_webhook P now payload signature timestamp secret max_age = .failure "Invalid JSON payload" ↔
      ((∃ ts, P.int_of_string timestamp = some ts ∧ |now - ts| ≤ max_age) ∧
       P.hmac_sha256_hex secret (timestamp ++ "." ++ payload) = signature ∧
       P.json_loads payload = none)) := by
  have hiff := compare_digest_iff (P.hmac_sha256_hex secret (timestamp ++ "." ++ payload)) signature
  cases hts : P.int_of_string timestamp with
  | none =>
    simp [verify_webhook, hts]
  | some ts =>
    by_cases hage : |now - ts| > max_age
    · have hle : ¬ (|now - ts| ≤ max_age) := not_le.mpr hage
      simp [verify_webhook, hts, hage, hle]
    · have hle : |now - ts| ≤ max_age := le_of_not_lt hage
      by_cases hsig : P.hmac_sha256_hex secret (timestamp ++ "." ++ payload) = signature
      · have hcd : compare_digest (P.hmac_sha256_hex secret (timestamp ++ "." ++ payload)) signature = true :=
          hiff.mpr hsig
        cases hj : P.json_loads payload with
        | none => simp [verify_webhook, hts, hage, hle, hsig, hcd, hj, compare_digest_self]
        | some j => simp [verify_webhook, hts, hage, hle, hsig, hcd, hj, compare_digest_self]
      · have hcd : compare_digest (P.hmac_sha256_hex secret (timestamp ++ "." ++ payload)) signature = false := by
          cases h : compare_digest (P.hmac_sha256_hex secret (timestamp ++ "." ++ payload)) signature
          · rfl
          · exact absurd (hiff.mp h) hsig
        simp [verify_webhook, hts, hage, hle, hsig, hcd]

/-- A retryable status is neither 204 nor a success status. -/
theorem _should_retry_not_success (status : Nat) (h : _should_retry status = true) :
    ¬ status = 204 ∧ is_success status = false := by
  have h' : status = 429 ∨ 500 ≤ status := by simpa [_should_retry] using h
  refine ⟨by omega, ?_⟩
  simp only [is_success, decide_eq_false_iff_not]
  omega

/-- When the current attempt is retryable and iterations remain, the loop
records the computed delay and recurses on the next attempt. -/
theorem requestLoop_retry_step (pf : String → Option Rat) (env : Nat → AttemptOutcome)
    (i k : Nat) (hr : (env i).isRetryable = true) (hk : k ≠ 0) :
    requestLoop pf env i (k + 1) =
      { result := (requestLoop pf env (i + 1) k).result,
        attempts := (requestLoop pf env (i + 1) k).attempts + 1,
        delays := (i, _get_retry_delay pf i (env i).retryAfterHeader) ::
          (requestLoop pf env (i + 1) k).delays } := by
  cases henv : env i with
  | response status ra body =>
    have hsr : _should_retry status = true := by
      simpa [AttemptOutcome.isRetryable, henv] using hr
    obtain ⟨h204, hsucc⟩ := _should_retry_not_success status hsr
    simp [requestLoop, henv, h204, hsucc, hsr, hk, AttemptOutcome.retryAfterHeader]
  | timeoutExc => simp [requestLoop, henv, hk, AttemptOutcome.retryAfterHeader]
  | requestExc m => simp [requestLoop, henv, hk, AttemptOutcome.retryAfterHeader]

/-- The loop makes at most as many physical attempts as it has iterations. -/
theorem requestLoop_attempts_le (pf : String → Option Rat) (env : Nat → AttemptOutcome) :
    ∀ k i, (requestLoop pf env i k).attempts ≤ k := by
  intro k
  induction k with
  | zero => intro i; simp [requestLoop]
  | succ k ih =>
    intro i
    cases henv : env i with
    | response status ra body =>
      by_cases h204 : status = 204
      · simp [requestLoop, henv, h204]
      · by_cases hsucc : is_success status = true
        · cases body <;> simp [requestLoop, henv, h204, hsucc]
        · by_cases hsr : _should_retry status = true
          · by_cases hk : k = 0
            · subst hk; simp [requestLoop, henv, h204, hsucc, hsr]
            · have h := ih (i + 1)
              simp [requestLoop, henv, h204, hsucc, hsr, hk]
              omega
          · simp [requestLoop, henv, h204, hsucc, hsr]
    | timeoutExc =>
      by_cases hk : k = 0
      · subst hk; simp [requestLoop, henv]
      · have h := ih (i + 1)
        simp [requestLoop, henv, hk]
        omega
    | requestExc m =>
      by_cases hk : k = 0
      · subst hk; simp [requestLoop, henv]
      · have h := ih (i + 1)
        simp [requestLoop, henv, hk]
        omega

/-- Every attempt that was followed by another attempt was retryable. -/
theorem requestLoop_prev_retryable (pf : String → Option Rat) (env : Nat → AttemptOutcome) :
    ∀ k i j, j + 1 < (requestLoop pf env i k).attempts → (env (i + j)).isRetryable = true := by
  intro k
  induction k with
  | zero => intro i j h; simp [requestLoop] at h
  | succ k ih =>
    intro i j h
    cases henv : env i with
    | response status ra body =>
      by_cases h204 : status = 204
      · simp [requestLoop, henv, h204] at h
      · by_cases hsucc : is_success status = true
        · cases body <;> simp [requestLoop, henv, h204, hsucc] at h
        · by_cases hsr : _should_retry status = true
          · by_cases hk : k = 0
            · subst hk; simp [requestLoop, henv, h204, hsucc, hsr] at h
            · have h' : j + 1 < (requestLoop pf env (i + 1) k).attempts + 1 := by
                simpa [requestLoop, henv, h204, hsucc, hsr, hk] using h
              cases j with
              | zero => simp [AttemptOutcome.isRetryable, henv, hsr]
              | succ j' =>
                have hrec := ih (i + 1) j' (by omega)
                have harr : i + 1 + j' = i + (j' + 1) := by omega
                rwa [harr] at hrec
          · simp [requestLoop, henv, h204, hsucc, hsr] at h
    | timeoutExc =>
      by_cases hk : k = 0
      · subst hk; simp [requestLoop, henv] at h
      · have h' : j + 1 < (requestLoop pf env (i + 1) k).attempts + 1 := by
          simpa [requestLoop, henv, hk] using h
        cases j with
        | zero => simp [AttemptOutcome.isRetryable, henv]
        | succ j' =>
          have hrec := ih (i + 1) j' (by omega)
          have harr : i + 1 + j' = i + (j' + 1) := by omega
          rwa [harr] at hrec
    | requestExc m =>
      by_cases hk : k = 0
      · subst hk; simp [requestLoop, henv] at h
      · have h' : j + 1 < (requestLoop pf env (i + 1) k).attempts + 1 := by
          simpa [requestLoop, henv, hk] using h
        cases j with
        | zero => simp [AttemptOutcome.isRetryable, henv]
        | succ j' =>
          have hrec := ih (i + 1) j' (by omega)
          have harr : i + 1 + j' = i + (j' + 1) := by omega
          rwa [harr] at hrec

/-- Every delay the loop records is the one computed by _get_retry_delay
for that attempt index and that attempt's Retry-After header. -/
theorem requestLoop_delays (pf : String → Option Rat) (env : Nat → AttemptOutcome) :
    ∀ k i n d, (n, d) ∈ (requestLoop pf env i k).delays →
      d = _get_retry_delay pf n (env n).retryAfterHeader := by
  intro k
  induction k with
  | zero => intro i n d h; simp [requestLoop] at h
  | succ k ih =>
    intro i n d h
    cases henv : env i with
    | response status ra body =>
      by_cases h204 : status = 204
      · simp [requestLoop, henv, h204] at h
      · by_cases hsucc : is_success status = true
        · cases body <;> simp [requestLoop, henv, h204, hsucc] at h
        · by_cases hsr : _should_retry status = true
          · by_cases hk : k = 0
            · subst hk; simp [requestLoop, henv, h204, hsucc, hsr] at h
            · have h' : (n, d) = (i, _get_retry_delay pf i ra) ∨
                  (n, d) ∈ (requestLoop pf env (i + 1) k).delays := by
                simpa [requestLoop, henv, h204, hsucc, hsr, hk] using h
              rcases h' with h' | h'
              · rw [Prod.mk.injEq] at h'
                obtain ⟨rfl, rfl⟩ := h'
                simp [AttemptOutcome.retryAfterHeader, henv]
              · exact ih (i + 1) n d h'
          · simp [requestLoop, henv, h204, hsucc, hsr] at h
    | timeoutExc =>
      by_cases hk : k = 0
      · subst hk; simp [requestLoop, henv] at h
      · have h' : (n, d) = (i, _get_retry_delay pf i none) ∨
            (n, d) ∈ (requestLoop pf env (i + 1) k).delays := by
          simpa [requestLoop, henv, hk] using h
        rcases h' with h' | h'
        · rw [Prod.mk.injEq] at h'
          obtain ⟨rfl, rfl⟩ := h'
          simp [AttemptOutcome.retryAfterHeader, henv]
        · exact ih (i + 1) n d h'
    | requestExc m =>
      by_cases hk : k = 0
      · subst hk; simp [requestLoop, henv] at h
      · have h' : (n, d) = (i, _get_retry_delay pf i none) ∨
            (n, d) ∈ (requestLoop pf env (i + 1) k).delays := by
          simpa [requestLoop, henv, hk] using h
        rcases h' with h' | h'
        · rw [Prod.mk.injEq] at h'
          obtain ⟨rfl, rfl⟩ := h'
          simp [AttemptOutcome.retryAfterHeader, henv]
        · exact ih (i + 1) n d h'

/-- If the first n attempts are all retryable and more than n iterations
remain, the loop reaches attempt n: its final result is the result of the
residual loop and the first n attempts all count. -/
theorem requestLoop_reach (pf : String → Option Rat) (env : Nat → AttemptOutcome) :
    ∀ n k i, n < k → (∀ j, j < n → (env (i + j)).isRetryable = true) →
      (requestLoop pf env i k).result = (requestLoop pf env (i + n) (k - n)).result ∧
      (requestLoop pf env i k).attempts = n + (requestLoop pf env (i + n) (k - n)).attempts := by
  intro n
  induction n with
  | zero => intro k i h1 h2; simp
  | succ n ih =>
    intro k i h1 h2
    obtain ⟨k', rfl⟩ : ∃ k', k = k' + 1 := ⟨k - 1, by omega⟩
    have hr : (env i).isRetryable = true := by simpa using h2 0 (by omega)
    have hk' : k' ≠ 0 := by omega
    have hstep := requestLoop_retry_step pf env i k' hr hk'
    have hrec := ih k' (i + 1) (by omega) (fun j hj => by
      have hh := h2 (j + 1) (by omega)
      have harr : i + (j + 1) = i + 1 + j := by omega
      rwa [harr] at hh)
    have harr2 : i + 1 + n = i + (n + 1) := by omega
    rw [harr2] at hrec
    rw [hstep]
    refine ⟨?_, ?_⟩
    · simpa [Nat.succ_sub_succ] using hrec.1
    · simp only [Nat.succ_sub_succ]
      have := hrec.2
      simp only [this]
      omega

/-- C2: a logical call through either transport makes at most
max_retries + 1 physical attempts, and an attempt is followed by a further
attempt only when it ended in a 429 or 5xx response or in a
network/timeout exception. -/
theorem transport_attempt_budget (max_retries : Int) (pf : String → Option Rat)
    (env : Nat → AttemptOutcome) (h : 0 ≤ max_retries) :
    ((SyncHttpClient.request max_retries pf env).attempts : Int) ≤ max_retries + 1 ∧
    ((AsyncHttpClient.request max_retries pf env).attempts : Int) ≤ max_retries + 1 ∧
    (∀ j, j + 1 < (SyncHttpClient.request max_retries pf env).attempts →
      (env j).isRetryable = true) ∧
    (∀ j, j + 1 < (AsyncHttpClient.request max_retries pf env).attempts →
      (env j).isRetryable = true) := by
  have hle := requestLoop_attempts_le pf env (max_retries + 1).toNat 0
  have hprev : ∀ j, j + 1 < (requestLoop pf env 0 (max_retries + 1).toNat).attempts →
      (env j).isRetryable = true := by
    intro j hj
    have := requestLoop_prev_retryable pf env (max_retries + 1).toNat 0 j hj
    simpa using this
  exact ⟨by unfold SyncHttpClient.request; omega,
         by unfold AsyncHttpClient.request; omega,
         hprev, hprev⟩

/-- Witness for C2: a budget of one retry against an environment that
always answers 500. -/
theorem transport_attempt_budget_witness :
    ((SyncHttpClient.request 1 (fun _ => none) (fun _ => .response 500 none none)).attempts : Int) ≤ 1 + 1 ∧
    ((AsyncHttpClient.request 1 (fun _ => none) (fun _ => .response 500 none none)).attempts : Int) ≤ 1 + 1 ∧
    (∀ j, j + 1 < (SyncHttpClient.request 1 (fun _ => none) (fun _ => .response 500 none none)).attempts →
      ((fun (_ : Nat) => AttemptOutcome.response 500 none none) j).isRetryable = true) ∧
    (∀ j, j + 1 < (AsyncHttpClient.request 1 (fun _ => none) (fun _ => .response 500 none none)).attempts →
      ((fun (_ : Nat) => AttemptOutcome.response 500 none none) j).isRetryable = true) :=
  transport_attempt_budget 1 (fun _ => none) (fun _ => .response 500 none none) (by decide)

/-- C3: every delay slept after attempt n equals _get_retry_delay for that
attempt and that attempt's Retry-After header; _get_retry_delay returns
the parsed header value when the header parses as a number, and
min(0.5 * 2^n, 8.0) otherwise; exception attempts (which carry no header)
always get the formula. -/
theorem transport_retry_delays (max_retries : Int) (pf : String → Option Rat)
    (env : Nat → AttemptOutcome) (hpf : pf "" = none) :
    (∀ n d, (n, d) ∈ (SyncHttpClient.request max_retries pf env).delays →
      d = _get_retry_delay pf n (env n).retryAfterHeader) ∧
    (∀ n d, (n, d) ∈ (AsyncHttpClient.request max_retries pf env).delays →
      d = _get_retry_delay pf n (env n).retryAfterHeader) ∧
    (∀ n s x, pf s = some x → _get_retry_delay pf n (some s) = x) ∧
    (∀ n s, pf s = none → _get_retry_delay pf n (some s) = min ((1 : Rat)/2 * 2 ^ n) 8) ∧
    (∀ n, _get_retry_delay pf n none = min ((1 : Rat)/2 * 2 ^ n) 8) ∧
    (∀ n d, (n, d) ∈ (SyncHttpClient.request max_retries pf env).delays →
      (env n = .timeoutExc ∨ ∃ m, env n = .requestExc m) →
      d = min ((1 : Rat)/2 * 2 ^ n) 8) := by
  have hdel : ∀ n d, (n, d) ∈ (requestLoop pf env 0 (max_retries + 1).toNat).delays →
      d = _get_retry_delay pf n (env n).retryAfterHeader :=
    fun n d hm => requestLoop_delays pf env (max_retries + 1).toNat 0 n d hm
  have hparse : ∀ n s x, pf s = some x → _get_retry_delay pf n (some s) = x := by
    intro n s x hx
    by_cases hs : s = ""
    · subst hs; rw [hpf] at hx; exact absurd hx (by simp)
    · simp [_get_retry_delay, hs, hx]
  have hnoparse : ∀ n s, pf s = none →
      _get_retry_delay pf n (some s) = min ((1 : Rat)/2 * 2 ^ n) 8 := by
    intro n s hx
    by_cases hs : s = ""
    · subst hs; simp [_get_retry_delay]
    · simp [_get_retry_delay, hs, hx]
  have hform : ∀ n, _get_retry_delay pf n none = min ((1 : Rat)/2 * 2 ^ n) 8 := by
    intro n; simp [_get_retry_delay]
  refine ⟨hdel, hdel, hparse, hnoparse, hform, ?_⟩
  intro n d hm hexc
  have hd := hdel n d hm
  rcases hexc with hx | ⟨m, hx⟩ <;>
    simpa [hx, AttemptOutcome.retryAfterHeader, hform] using hd

/-- Witness for C3: a two-retry run over timeouts with a float parser that
fails on every string. -/
theorem transport_retry_delays_witness :
    (∀ n d, (n, d) ∈ (SyncHttpClient.request 2 (fun _ => none) (fun _ => .timeoutExc)).delays →
      d = _get_retry_delay (fun _ => none) n ((fun (_ : Nat) => AttemptOutcome.timeoutExc) n).retryAfterHeader) ∧
    (∀ n d, (n, d) ∈ (AsyncHttpClient.request 2 (fun _ => none) (fun _ => .timeoutExc)).delays →
      d = _get_retry_delay (fun _ => none) n ((fun (_ : Nat) => AttemptOutcome.timeoutExc) n).retryAfterHeader) ∧
    (∀ n s x, (fun (_ : String) => (none : Option Rat)) s = some x →
      _get_retry_delay (fun _ => none) n (some s) = x) ∧
    (∀ n s, (fun (_ : String) => (none : Option Rat)) s = none →
      _get_retry_delay (fun _ => none) n (some s) = min ((1 : Rat)/2 * 2 ^ n) 8) ∧
    (∀ n, _get_retry_delay (fun (_ : String) => (none : Option Rat)) n none = min ((1 : Rat)/2 * 2 ^ n) 8) ∧
    (∀ n d, (n, d) ∈ (SyncHttpClient.request 2 (fun _ => none) (fun _ => .timeoutExc)).delays →
      ((fun (_ : Nat) => AttemptOutcome.timeoutExc) n = .timeoutExc ∨
        ∃ m, (fun (_ : Nat) => AttemptOutcome.timeoutExc) n = .requestExc m) →
      d = min ((1 : Rat)/2 * 2 ^ n) 8) :=
  transport_retry_delays 2 (fun _ => none) (fun _ => .timeoutExc) rfl

/-- C5 as stated is false: here a 201 (success-status) response whose body
does not parse as JSON ends the call with the uncaught JSON decode
exception, not with a success Outcome. -/
theorem transport_success_outcome_counterexample :
    (SyncHttpClient.request 2 (fun _ => none) (fun _ => .response 201 none none)).result =
      RunResult.raised ∧
    ∀ r, (SyncHttpClient.request 2 (fun _ => none)
      (fun _ => .response 201 none none)).result ≠ RunResult.outcome r := by
  refine ⟨rfl, fun r h => ?_⟩
  rw [show (SyncHttpClient.request 2 (fun _ => none)
    (fun _ => .response 201 none none)).result = RunResult.raised from rfl] at h
  exact RunResult.noConfusion h

/-- C5 (amended): when the loop reaches attempt i and that attempt is a
success-status response, a 204 yields a success Result with data None; any
other success status yields a success Result whose data is exactly the
parsed JSON body when the body parses, and raises the JSON decode
exception out of request when it does not.  Both transports agree. -/
theorem transport_success_response (max_retries : Int) (pf : String → Option Rat)
    (env : Nat → AttemptOutcome) (i status : Nat) (ra : Option String) (body : Option Json)
    (hreach : ∀ j, j < i → (env j).isRetryable = true)
    (hi : (i : Int) < max_retries + 1)
    (henv : env i = .response status ra body)
    (hsucc : 200 ≤ status ∧ status < 300) :
    (status = 204 →
      (SyncHttpClient.request max_retries pf env).result = .outcome { data := Json.null } ∧
      (AsyncHttpClient.request max_retries pf env).result = .outcome { data := Json.null }) ∧
    (status ≠ 204 → ∀ v, body = some v →
      (SyncHttpClient.request max_retries pf env).result = .outcome { data := v } ∧
      (AsyncHttpClient.request max_retries pf env).result = .outcome { data := v }) ∧
    (status ≠ 204 → body = none →
      (SyncHttpClient.request max_retries pf env).result = .raised ∧
      (AsyncHttpClient.request max_retries pf env).result = .raised) := by
  have hik : i < (max_retries + 1).toNat := by omega
  have hres : (requestLoop pf env 0 (max_retries + 1).toNat).result =
      (requestLoop pf env i ((max_retries + 1).toNat - i)).result := by
    have := (requestLoop_reach pf env i (max_retries + 1).toNat 0 hik
      (fun j hj => by simpa using hreach j hj)).1
    simpa using this
  obtain ⟨m, hm⟩ : ∃ m, (max_retries + 1).toNat - i = m + 1 :=
    ⟨(max_retries + 1).toNat - i - 1, by omega⟩
  rw [hm] at hres
  have hs : is_success status = true := by
    simp only [is_success, decide_eq_true_eq]
    exact hsucc
  have hsynceq : SyncHttpClient.request max_retries pf env =
    requestLoop pf env 0 (max_retries + 1).toNat := rfl
  have hasynceq : AsyncHttpClient.request max_retries pf env =
    requestLoop pf env 0 (max_retries + 1).toNat := rfl
  refine ⟨?_, ?_, ?_⟩
  · intro h204
    have hcore : (requestLoop pf env i (m + 1)).result = .outcome { data := Json.null } := by
      simp [requestLoop, henv, h204]
    exact ⟨by rw [hsynceq, hres, hcore], by rw [hasynceq, hres, hcore]⟩
  · intro h204 v hv
    have hcore : (requestLoop pf env i (m + 1)).result = .outcome { data := v } := by
      simp [requestLoop, henv, h204, hs, hv]
    exact ⟨by rw [hsynceq, hres, hcore], by rw [hasynceq, hres, hcore]⟩
  · intro h204 hv
    have hcore : (requestLoop pf env i (m + 1)).result = .raised := by
      simp [requestLoop, henv, h204, hs, hv]
    exact ⟨by rw [hsynceq, hres, hcore], by rw [hasynceq, hres, hcore]⟩

/-- Witness for the amended C5: first attempt answers 204, then a 200 whose
body parses, then a 200 whose body does not. -/
theorem transport_success_response_witness :
    ((204 : Nat) = 204 →
      (SyncHttpClient.request 2 (fun _ => none) (fun _ => .response 204 none (some Json.null))).result =
        .outcome { data := Json.null } ∧
      (AsyncHttpClient.request 2 (fun _ => none) (fun _ => .response 204 none (some Json.null))).result =
        .outcome { data := Json.null }) ∧
    ((204 : Nat) ≠ 204 → ∀ v, (some Json.null) = some v →
      (SyncHttpClient.request 2 (fun _ => none) (fun _ => .response 204 none (some Json.null))).result =
        .outcome { data := v } ∧
      (AsyncHttpClient.request 2 (fun _ => none) (fun _ => .response 204 none (some Json.null))).result =
        .outcome { data := v }) ∧
    ((204 : Nat) ≠ 204 → (some Json.null) = none →
      (SyncHttpClient.request 2 (fun _ => none) (fun _ => .response 204 none (some Json.null))).result =
        .raised ∧
      (AsyncHttpClient.request 2 (fun _ => none) (fun _ => .response 204 none (some Json.null))).result =
        .raised) :=
  transport_success_response 2 (fun _ => none) (fun _ => .response 204 none (some Json.null))
    0 204 none (some Json.null)
    (fun j hj => absurd hj (Nat.not_lt_zero j)) (by decide) rfl (by decide)

/-- C6: a failure response that is not retryable (status neither 429 nor
5xx), or a retryable failure on the final attempt, terminates the call at
once with an api_error Outcome carrying the response status, the message
from the body's "message" field and the api_code from its "code" field,
with fallbacks "Request failed: <status>" and None when the body does not
parse (or is not an object, or lacks the field). -/
theorem transport_api_error (max_retries : Int) (pf : String → Option Rat)
    (env : Nat → AttemptOutcome) (i status : Nat) (ra : Option String) (body : Option Json)
    (hreach : ∀ j, j < i → (env j).isRetryable = true)
    (hi : (i : Int) < max_retries + 1)
    (henv : env i = .response status ra body)
    (hfail : ¬ (200 ≤ status ∧ status < 300))
    (hterm : _should_retry status = false ∨ (i : Int) = max_retries) :
    (SyncHttpClient.request max_retries pf env).result = .outcome { error := some { message := (_parse_error status body).1, code := "api_error", api_code := (_parse_error status body).2, status := some status } } ∧
    (AsyncHttpClient.request max_retries pf env).result = .outcome { error := some { message := (_parse_error status body).1, code := "api_error", api_code := (_parse_error status body).2, status := some status } } ∧
    (SyncHttpClient.request max_retries pf env).attempts = i + 1 ∧
    (AsyncHttpClient.request max_retries pf env).attempts = i + 1 ∧
    (body = none →
      _parse_error status body = (.str ("Request failed: " ++ toString status), .null)) ∧
    (∀ entries m, body = some (.obj entries) → dict_find entries "message" = some m →
      (_parse_error status body).1 = m) ∧
    (∀ entries c, body = some (.obj entries) → dict_find entries "code" = some c →
      (_parse_error status body).2 = c) ∧
    (∀ entries, body = some (.obj entries) → dict_find entries "message" = none →
      (_parse_error status body).1 = .str ("Request failed: " ++ toString status)) := by
  have hik : i < (max_retries + 1).toNat := by omega
  have hRR := requestLoop_reach pf env i (max_retries + 1).toNat 0 hik
    (fun j hj => by simpa using hreach j hj)
  have hres : (requestLoop pf env 0 (max_retries + 1).toNat).result =
      (requestLoop pf env i ((max_retries + 1).toNat - i)).result := by simpa using hRR.1
  have hatt : (requestLoop pf env 0 (max_retries + 1).toNat).attempts =
      i + (requestLoop pf env i ((max_retries + 1).toNat - i)).attempts := by simpa using hRR.2
  obtain ⟨m, hm⟩ : ∃ m, (max_retries + 1).toNat - i = m + 1 :=
    ⟨(max_retries + 1).toNat - i - 1, by omega⟩
  rw [hm] at hres hatt
  have h204 : ¬ status = 204 := by
    intro h; subst h; exact hfail (by decide)
  have hs : is_success status = false := by
    simp only [is_success, decide_eq_false_iff_not]
    exact hfail
  have hcond : ¬ (_should_retry status = true ∧ m ≠ 0) := by
    rcases hterm with ht | ht
    · intro hc; rw [ht] at hc; exact Bool.false_ne_true hc.1
    · intro hc; exact hc.2 (by omega)
  have hcore : requestLoop pf env i (m + 1) = { result := .outcome { error := some { message := (_parse_error status body).1, code := "api_error", api_code := (_parse_error status body).2, status := some status } }, attempts := 1, delays := [] } := by
    simp [requestLoop, henv, h204, hs, hcond]
  have hsynceq : SyncHttpClient.request max_retries pf env =
    requestLoop pf env 0 (max_retries + 1).toNat := rfl
  have hasynceq : AsyncHttpClient.request max_retries pf env =
    requestLoop pf env 0 (max_retries + 1).toNat := rfl
  refine ⟨by rw [hsynceq, hres, hcore], by rw [hasynceq, hres, hcore],
    by rw [hsynceq, hatt, hcore], by rw [hasynceq, hatt, hcore], ?_, ?_, ?_, ?_⟩
  · intro hb; subst hb; rfl
  · intro entries mm hb hfind
    subst hb
    simp [_parse_error, dict_get, hfind]
  · intro entries c hb hfind
    subst hb
    simp [_parse_error, dict_get, hfind]
  · intro entries hb hfind
    subst hb
    simp [_parse_error, dict_get, hfind]

/-- Witness for C6: a single 403 response whose body carries a message and
a code terminates at once with the matching api_error. -/
theorem transport_api_error_witness :
    (SyncHttpClient.request 2 (fun _ => none) (fun _ => .response 403 none (some (.obj [("message", .str "Domain not verified"), ("code", .str "DOMAIN_NOT_VERIFIED")])))).result = .outcome { error := some { message := (_parse_error 403 (some (.obj [("message", .str "Domain not verified"), ("code", .str "DOMAIN_NOT_VERIFIED")]))).1, code := "api_error", api_code := (_parse_error 403 (some (.obj [("message", .str "Domain not verified"), ("code", .str "DOMAIN_NOT_VERIFIED")]))).2, status := some 403 } } ∧
    (AsyncHttpClient.request 2 (fun _ => none) (fun _ => .response 403 none (some (.obj [("message", .str "Domain not verified"), ("code", .str "DOMAIN_NOT_VERIFIED")])))).result = .outcome { error := some { message := (_parse_error 403 (some (.obj [("message", .str "Domain not verified"), ("code", .str "DOMAIN_NOT_VERIFIED")]))).1, code := "api_error", api_code := (_parse_error 403 (some (.obj [("message", .str "Domain not verified"), ("code", .str "DOMAIN_NOT_VERIFIED")]))).2, status := some 403 } } ∧
    (SyncHttpClient.request 2 (fun _ => none) (fun _ => .response 403 none (some (.obj [("message", .str "Domain not verified"), ("code", .str "DOMAIN_NOT_VERIFIED")])))).attempts = 0 + 1 ∧
    (AsyncHttpClient.request 2 (fun _ => none) (fun _ => .response 403 none (some (.obj [("message", .str "Domain not verified"), ("code", .str "DOMAIN_NOT_VERIFIED")])))).attempts = 0 + 1 ∧
    ((some (Json.obj [("message", .str "Domain not verified"), ("code", .str "DOMAIN_NOT_VERIFIED")]) : Option Json) = none → _parse_error 403 (some (.obj [("message", .str "Domain not verified"), ("code", .str "DOMAIN_NOT_VERIFIED")])) = (.str ("Request failed: " ++ toString 403), .null)) ∧
    (∀ entries m, (some (Json.obj [("message", .str "Domain not verified"), ("code", .str "DOMAIN_NOT_VERIFIED")]) : Option Json) = some (.obj entries) → dict_find entries "message" = some m → (_parse_error 403 (some (.obj [("message", .str "Domain not verified"), ("code", .str "DOMAIN_NOT_VERIFIED")]))).1 = m) ∧
    (∀ entries c, (some (Json.obj [("message", .str "Domain not verified"), ("code", .str "DOMAIN_NOT_VERIFIED")]) : Option Json) = some (.obj entries) → dict_find entries "code" = some c → (_parse_error 403 (some (.obj [("message", .str "Domain not verified"), ("code", .str "DOMAIN_NOT_VERIFIED")]))).2 = c) ∧
    (∀ entries, (some (Json.obj [("message", .str "Domain not verified"), ("code", .str "DOMAIN_NOT_VERIFIED")]) : Option Json) = some (.obj entries) → dict_find entries "message" = none → (_parse_error 403 (some (.obj [("message", .str "Domain not verified"), ("code", .str "DOMAIN_NOT_VERIFIED")]))).1 = .str ("Request failed: " ++ toString 403)) :=
  transport_api_error 2 (fun _ => none)
    (fun _ => .response 403 none (some (.obj [("message", .str "Domain not verified"), ("code", .str "DOMAIN_NOT_VERIFIED")])))
    0 403 none
    (some (.obj [("message", .str "Domain not verified"), ("code", .str "DOMAIN_NOT_VERIFIED")]))
    (fun j hj => absurd hj (Nat.not_lt_zero j)) (by decide) rfl (by decide) (Or.inl (by decide))

/-- C8 as stated is false in its final clause: this logical call (a 200
response with an unparseable body) ends with an uncaught JSON decode
exception, producing no Outcome at all. -/
theorem transport_one_outcome_counterexample :
    (SyncHttpClient.request 1 (fun _ => none) (fun _ => .response 200 none none)).result =
      RunResult.raised ∧
    ∀ r, (SyncHttpClient.request 1 (fun _ => none)
      (fun _ => .response 200 none none)).result ≠ RunResult.outcome r := by
  refine ⟨rfl, fun r h => ?_⟩
  rw [show (SyncHttpClient.request 1 (fun _ => none)
    (fun _ => .response 200 none none)).result = RunResult.raised from rfl] at h
  exact RunResult.noConfusion h

/-- C8 (amended): the post-loop fallback exists in both transports and is
Result(error = SendPigeonError("Max retries exceeded", "network_error"));
it is exactly what the loop returns when it has no iterations left (for
example when max_retries + 1 is not positive, since range(max_retries+1)
is then empty), and every logical call ends either in exactly one Outcome
or in the uncaught JSON decode exception. -/
theorem transport_fallthrough (max_retries : Int) (pf : String → Option Rat)
    (env : Nat → AttemptOutcome) (h : max_retries + 1 ≤ 0) :
    SyncHttpClient.request max_retries pf env = { result := .outcome { error := some { message := .str "Max retries exceeded", code := "network_error" } }, attempts := 0, delays := [] } ∧
    AsyncHttpClient.request max_retries pf env = { result := .outcome { error := some { message := .str "Max retries exceeded", code := "network_error" } }, attempts := 0, delays := [] } ∧
    (∀ i, requestLoop pf env i 0 = { result := .outcome { error := some { message := .str "Max retries exceeded", code := "network_error" } }, attempts := 0, delays := [] }) ∧
    (∀ mr : Int, (∃ r, (SyncHttpClient.request mr pf env).result = .outcome r) ∨
      (SyncHttpClient.request mr pf env).result = .raised) ∧
    (∀ mr : Int, (∃ r, (AsyncHttpClient.request mr pf env).result = .outcome r) ∨
      (AsyncHttpClient.request mr pf env).result = .raised) := by
  have h0 : (max_retries + 1).toNat = 0 := by omega
  refine ⟨?_, ?_, fun i => rfl, ?_, ?_⟩
  · unfold SyncHttpClient.request
    rw [h0]
    rfl
  · unfold AsyncHttpClient.request
    rw [h0]
    rfl
  · intro mr
    cases hres : (SyncHttpClient.request mr pf env).result with
    | outcome r => exact Or.inl ⟨r, rfl⟩
    | raised => exact Or.inr rfl
  · intro mr
    cases hres : (AsyncHttpClient.request mr pf env).result with
    | outcome r => exact Or.inl ⟨r, rfl⟩
    | raised => exact Or.inr rfl

/-- Witness for the amended C8: max_retries = -1 gives an empty loop, so
the fallback is returned. -/
theorem transport_fallthrough_witness :
    SyncHttpClient.request (-1) (fun _ => none) (fun _ => .timeoutExc) = { result := .outcome { error := some { message := .str "Max retries exceeded", code := "network_error" } }, attempts := 0, delays := [] } ∧
    AsyncHttpClient.request (-1) (fun _ => none) (fun _ => .timeoutExc) = { result := .outcome { error := some { message := .str "Max retries exceeded", code := "network_error" } }, attempts := 0, delays := [] } ∧
    (∀ i, requestLoop (fun _ => none) (fun _ => .timeoutExc) i 0 = { result := .outcome { error := some { message := .str "Max retries exceeded", code := "network_error" } }, attempts := 0, delays := [] }) ∧
    (∀ mr : Int, (∃ r, (SyncHttpClient.request mr (fun _ => none) (fun _ => .timeoutExc)).result = .outcome r) ∨
      (SyncHttpClient.request mr (fun _ => none) (fun _ => .timeoutExc)).result = .raised) ∧
    (∀ mr : Int, (∃ r, (AsyncHttpClient.request mr (fun _ => none) (fun _ => .timeoutExc)).result = .outcome r) ∨
      (AsyncHttpClient.request mr (fun _ => none) (fun _ => .timeoutExc)).result = .raised) :=
  transport_fallthrough (-1) (fun _ => none) (fun _ => .timeoutExc) (by decide)

/-- C4 as stated is false: a negative max_retries input is not clamped to
0; both constructors store it unchanged. -/
theorem max_retries_clamp_counterexample :
    (SendPigeon.initOptions none none (some (-1)) false).max_retries = -1 ∧
    (AsyncSendPigeon.initOptions none none (some (-1)) false).max_retries = -1 ∧
    ¬ (SendPigeon.initOptions none none (some (-1)) false).max_retries = 0 := by
  exact ⟨rfl, rfl, by decide⟩

/-- C4 (amended): the effective retry count is min(input, 5): inputs above
5 are clamped down to 5, all other inputs (negative ones included) are
stored as given, and an omitted argument leaves the default 2; both
constructors behave identically. -/
theorem max_retries_effective (b : Option String) (t : Option Rat) (m : Int) (d : Bool) :
    (SendPigeon.initOptions b t (some m) d).max_retries = min m 5 ∧
    (AsyncSendPigeon.initOptions b t (some m) d).max_retries = min m 5 ∧
    (SendPigeon.initOptions b t none d).max_retries = 2 ∧
    (AsyncSendPigeon.initOptions b t none d).max_retries = 2 := by
  unfold SendPigeon.initOptions AsyncSendPigeon.initOptions
  cases b with
  | none =>
    cases t with
    | none => exact ⟨rfl, rfl, rfl, rfl⟩
    | some tv =>
      by_cases ht : tv ≠ 0 <;> simp [ht]
  | some bv =>
    by_cases hb : bv ≠ "" <;> cases t with
    | none => simp [hb]
    | some tv => by_cases ht : tv ≠ 0 <;> simp [hb, ht]

/-- Membership in an optField segment. -/
theorem mem_optField (p : String × Json) (c : Bool) (key : String) (v : Json) :
    p ∈ optField c key v ↔ (c = true ∧ p = (key, v)) := by
  unfold optField
  cases c <;> simp

/-- Keys contributed by an optField segment. -/
theorem mem_optField_fst (k : String) (c : Bool) (key : String) (v : Json) :
    k ∈ (optField c key v).map Prod.fst ↔ (c = true ∧ k = key) := by
  unfold optField
  cases c <;> simp

/-- C7 as stated is false: a non-None scheduled_at is serialized under the
snake_case key scheduled_at, not under scheduledAt, in both send paths. -/
theorem scheduled_at_key_counterexample :
    ((build_send_body (.str "a@x.com") .null .null .null .null .null .null .null .null .null none .null .null .null (.str "2024-01-15T10:00:00Z")).map Prod.fst).contains "scheduledAt" = false ∧
    ((build_send_body (.str "a@x.com") .null .null .null .null .null .null .null .null .null none .null .null .null (.str "2024-01-15T10:00:00Z")).map Prod.fst).contains "scheduled_at" = true ∧
    ((SendPigeon.sendBody (.str "a@x.com") .null .null .null .null .null .null .null .null .null none .null .null .null (.str "2024-01-15T10:00:00Z")).map Prod.fst).contains "scheduledAt" = false ∧
    ((SendPigeon.sendBody (.str "a@x.com") .null .null .null .null .null .null .null .null .null none .null .null .null (.str "2024-01-15T10:00:00Z")).map Prod.fst).contains "scheduled_at" = true := by
  exact ⟨rfl, rfl, rfl, rfl⟩

/-- C7 (amended): non-default fields reply_to and template_id go on the
wire under the camelCase keys replyTo and templateId, but a non-None
scheduled_at is serialized under the snake_case key scheduled_at, and the
key scheduledAt never occurs; this holds in both the shared builder and
the inline body construction of SendPigeon.send, for all other field
values. -/
theorem send_body_wire_keys (r t s : String) (hr : r ≠ "") (ht : t ≠ "") (hs : s ≠ "")
    (to_ subject html text from_ cc bcc variables_ : Json)
    (attachments : Option (List AttachmentInput)) (tags metadata headers : Json) :
    ("replyTo", Json.str r) ∈ build_send_body to_ subject html text from_ cc bcc (.str r) (.str t) variables_ attachments tags metadata headers (.str s) ∧
    ("templateId", Json.str t) ∈ build_send_body to_ subject html text from_ cc bcc (.str r) (.str t) variables_ attachments tags metadata headers (.str s) ∧
    ("scheduled_at", Json.str s) ∈ build_send_body to_ subject html text from_ cc bcc (.str r) (.str t) variables_ attachments tags metadata headers (.str s) ∧
    ¬ "scheduledAt" ∈ (build_send_body to_ subject html text from_ cc bcc (.str r) (.str t) variables_ attachments tags metadata headers (.str s)).map Prod.fst ∧
    ("replyTo", Json.str r) ∈ SendPigeon.sendBody to_ subject html text from_ cc bcc (.str r) (.str t) variables_ attachments tags metadata headers (.str s) ∧
    ("templateId", Json.str t) ∈ SendPigeon.sendBody to_ subject html text from_ cc bcc (.str r) (.str t) variables_ attachments tags metadata headers (.str s) ∧
    ("scheduled_at", Json.str s) ∈ SendPigeon.sendBody to_ subject html text from_ cc bcc (.str r) (.str t) variables_ attachments tags metadata headers (.str s) ∧
    ¬ "scheduledAt" ∈ (SendPigeon.sendBody to_ subject html text from_ cc bcc (.str r) (.str t) variables_ attachments tags metadata headers (.str s)).map Prod.fst := by
  cases attachments with
  | none =>
    refine ⟨?_, ?_, ?_, ?_, ?_, ?_, ?_, ?_⟩ <;>
      simp [build_send_body, SendPigeon.sendBody, List.mem_append, mem_optField,
        mem_optField_fst, pyTruthy, hr, ht, hs]
  | some l =>
    refine ⟨?_, ?_, ?_, ?_, ?_, ?_, ?_, ?_⟩ <;>
      simp [build_send_body, SendPigeon.sendBody, List.mem_append, mem_optField,
        mem_optField_fst, pyTruthy, hr, ht, hs]

/-- Witness for the amended C7 at concrete field values. -/
theorem send_body_wire_keys_witness :
    ("replyTo", Json.str "reply@x.com") ∈ build_send_body (.str "a@x.com") .null .null .null .null .null .null (.str "reply@x.com") (.str "tmpl_1") .null none .null .null .null (.str "2024-01-15T10:00:00Z") ∧
    ("templateId", Json.str "tmpl_1") ∈ build_send_body (.str "a@x.com") .null .null .null .null .null .null (.str "reply@x.com") (.str "tmpl_1") .null none .null .null .null (.str "2024-01-15T10:00:00Z") ∧
    ("scheduled_at", Json.str "2024-01-15T10:00:00Z") ∈ build_send_body (.str "a@x.com") .null .null .null .null .null .null (.str "reply@x.com") (.str "tmpl_1") .null none .null .null .null (.str "2024-01-15T10:00:00Z") ∧
    ¬ "scheduledAt" ∈ (build_send_body (.str "a@x.com") .null .null .null .null .null .null (.str "reply@x.com") (.str "tmpl_1") .null none .null .null .null (.str "2024-01-15T10:00:00Z")).map Prod.fst ∧
    ("replyTo", Json.str "reply@x.com") ∈ SendPigeon.sendBody (.str "a@x.com") .null .null .null .null .null .null (.str "reply@x.com") (.str "tmpl_1") .null none .null .null .null (.str "2024-01-15T10:00:00Z") ∧
    ("templateId", Json.str "tmpl_1") ∈ SendPigeon.sendBody (.str "a@x.com") .null .null .null .null .null .null (.str "reply@x.com") (.str "tmpl_1") .null none .null .null .null (.str "2024-01-15T10:00:00Z") ∧
    ("scheduled_at", Json.str "2024-01-15T10:00:00Z") ∈ SendPigeon.sendBody (.str "a@x.com") .null .null .null .null .null .null (.str "reply@x.com") (.str "tmpl_1") .null none .null .null .null (.str "2024-01-15T10:00:00Z") ∧
    ¬ "scheduledAt" ∈ (SendPigeon.sendBody (.str "a@x.com") .null .null .null .null .null .null (.str "reply@x.com") (.str "tmpl_1") .null none .null .null .null (.str "2024-01-15T10:00:00Z")).map Prod.fst :=
  send_body_wire_keys "reply@x.com" "tmpl_1" "2024-01-15T10:00:00Z"
    (by decide) (by decide) (by decide)
    (.str "a@x.com") .null .null .null .null .null .null .null none .null .null .null

/-- C10: Result.unwrap raises ValueError on every success Result whose
data is absent (error is None and ok is true, as for a 204 response), it
raises the stored error when one is present, and it returns a value only
when data is present. -/
theorem unwrap_absent_data (r : Result) :
    (r.error = none → r.data = Json.null →
      Result.ok r = true ∧ r.unwrap = .raisedValueError "Result has no data") ∧
    (∀ v, r.unwrap = .value v → r.error = none ∧ r.data = v ∧ v.isNull = false) ∧
    (∀ e, r.error = some e → r.unwrap = .raisedError e) := by
  obtain ⟨d, err⟩ := r
  refine ⟨?_, ?_, ?_⟩
  · intro he hd
    simp only at he hd
    subst he
    subst hd
    exact ⟨rfl, rfl⟩
  · intro v h
    cases err with
    | some e => exact absurd h (by simp [Result.unwrap])
    | none =>
      by_cases hn : d.isNull = true
      · exact absurd h (by simp [Result.unwrap, hn])
      · have hv : d = v := by
          have := h
          simp [Result.unwrap, hn] at this
          exact this
        subst hv
        simp [hn]
  · intro e he
    simp only at he
    subst he
    rfl

/-- Witness for C10: the Result produced for a 204 response (data None,
error None) is ok yet unwrap raises ValueError. -/
theorem unwrap_absent_data_witness :
    Result.ok { data := Json.null, error := none } = true ∧
    Result.unwrap { data := Json.null, error := none } = .raisedValueError "Result has no data" :=
  (unwrap_absent_data { data := Json.null, error := none }).1 rfl rfl
